import Mathlib

/-!
Shallow embedding, in Lean 4, of the concurrency/coordination core of the
Kromer currency server (Rust): the bearer-session registry (`src/auth.rs`),
the WebSocket hub and its one-shot token registry (`src/websockets/mod.rs`),
the money-moving transaction primitive (`src/database/transaction.rs`) and
the subscription scheduler (`src/subs.rs`).

Machine integers and `chrono` timestamps are embedded as `Int` (seconds),
`rust_decimal::Decimal` amounts as `Int` (the embedded code only adds,
subtracts, takes absolute values of and compares amounts, and every claim
is generic in that exact arithmetic), UUIDs as `Nat`, and the concurrent maps (`dashmap::DashMap`, `scc::HashMap`) as
functions `Nat → Option β` acted on by one operation at a time.
-/

namespace Kromer

/-! ## Bearer-session registry (`src/auth.rs`, `AuthSessions`)

`AuthSessions.sessions : DashMap<Uuid, (String, DateTime<Utc>)>` maps a
session UUID to the pair (address, expiry).  `Utc::now()` is passed
explicitly as the `now : Int` argument of each operation. -/

/-- The `DashMap<Uuid, (String, DateTime<Utc>)>` of `AuthSessions`. -/
def AuthMap : Type := Nat → Option (String × Int)

/-- `DashMap::insert`. -/
def AuthMap.insert (m : AuthMap) (id : Nat) (v : String × Int) : AuthMap :=
  fun k => if k = id then some v else m k

/-- `DashMap::remove`. -/
def AuthMap.erase (m : AuthMap) (id : Nat) : AuthMap :=
  fun k => if k = id then none else m k

/-- `AuthSessions::register`: inserts the session under the freshly drawn
UUID `id` with expiry `now + 1h` and returns `(id, exp)`.  (The random
`Uuid::new_v4()` is passed in as `id`.) -/
def AuthSessions.register (m : AuthMap) (id : Nat) (addr : String) (now : Int) :
    (Nat × Int) × AuthMap :=
  let exp := now + 3600
  ((id, exp), m.insert id (addr, exp))

/-- `AuthSessions::is_authed_addr`: `None` if the id is absent; if the entry
is expired (`exp <= now`) it is evicted and `None` is returned; otherwise
`Some (stored address == addr)`.  Returns the answer and the map after the
lazy eviction. -/
def AuthSessions.is_authed_addr (m : AuthMap) (id : Nat) (addr : String) (now : Int) :
    Option Bool × AuthMap :=
  match m id with
  | none => (none, m)
  | some (actual_addr, exp) =>
      if exp ≤ now then (none, m.erase id)
      else (some (addr = actual_addr), m)

/-- `AuthSessions::vacuum`: `self.sessions.retain(|_, (_, exp)| *exp <= current_time)`.
`DashMap::retain` keeps exactly the entries for which the closure is true. -/
def AuthSessions.vacuum (m : AuthMap) (now : Int) : AuthMap :=
  fun k =>
    match m k with
    | none => none
    | some (addr, exp) => if exp ≤ now then some (addr, exp) else none

end Kromer

namespace Kromer

/-! Concrete sample states used by closed theorems. -/

/-- A two-entry session map: session `1` expires at time `100`, session `2`
expired at time `10`. -/
def sampleAuthMap : AuthMap :=
  fun k => if k = 1 then some ("kaaaaaaaaa", 100)
           else if k = 2 then some ("kbbbbbbbbb", 10) else none

end Kromer

namespace Kromer

/-! ## WebSocket data model

`WebSocketSubscriptionType` and the session/token records live in
`src/websockets/types/common.rs`, which is not among the sources here; they
are modelled from the spec (§3 `WsToken`/`WsSession`, §4.D subscription
kinds) and from their uses in `src/websockets/mod.rs`. -/

/-- Modelled from the spec: §4.D,
`SubscriptionKind ∈ {Blocks, OwnBlocks, Transactions, OwnTransactions, Names, OwnNames, Motd}`
(the enum itself is declared in the absent `websockets/types/common.rs`; the
variants used by `broadcast_event` appear verbatim in `websockets/mod.rs`). -/
inductive WebSocketSubscriptionType where
  | Blocks
  | OwnBlocks
  | Transactions
  | OwnTransactions
  | Names
  | OwnNames
  | Motd
deriving DecidableEq, Repr

/-- Modelled from the spec: §3 `WsToken {token, address, private_key?, computer_id?}`
(declared in the absent `websockets/types/common.rs`). The UUID key is held
by the map, not the record. -/
structure WebSocketTokenData where
  address : String
  private_key : Option String
  computer_id : Option Int
deriving DecidableEq, Repr

/-- The per-connection record of `src/websockets/mod.rs::insert_session`:
`{address, private_key, session, subscriptions, computer_id}`. The socket
handle (`actix_ws::Session`) is embedded as an opaque numeric handle id.
The `scc::HashSet` of subscriptions is a duplicate-free list. -/
structure WebSocketSessionData where
  address : String
  private_key : Option String
  session : Int
  subscriptions : List WebSocketSubscriptionType
  computer_id : Option Int
deriving DecidableEq, Repr

/-- Modelled from the spec: glossary — a guest is a WebSocket session whose
`address` is the sentinel string `"guest"` (the `is_guest` helper is
declared in the absent `websockets/types/common.rs`). -/
def WebSocketSessionData.is_guest (s : WebSocketSessionData) : Bool :=
  s.address = "guest"

/-- Modelled from the spec: membership in the session's subscription set
(the `is_subscribed_to` helper is declared in the absent
`websockets/types/common.rs`). -/
def WebSocketSessionData.is_subscribed_to (s : WebSocketSessionData)
    (k : WebSocketSubscriptionType) : Bool :=
  s.subscriptions.contains k

/-! ## One-shot token registry (`src/websockets/mod.rs`, `pending_tokens`) -/

/-- The `scc::HashMap<Uuid, WebSocketTokenData>` of pending hand-off tokens. -/
def TokenMap : Type := Nat → Option WebSocketTokenData

/-- `scc::HashMap::insert_sync` under the freshly drawn UUID.  The retry
loop of `obtain_token` terminates exactly when the drawn UUID is not yet a
key, so the embedding takes the winning draw `uuid` as an argument and is
meaningful under the hypothesis `m uuid = none`. -/
def WebSocketServer.obtain_token (m : TokenMap) (uuid : Nat)
    (token_data : WebSocketTokenData) : TokenMap :=
  fun k => if k = uuid then some token_data else m k

/-- `scc::HashMap::remove_sync`. -/
def TokenMap.erase (m : TokenMap) (uuid : Nat) : TokenMap :=
  fun k => if k = uuid then none else m k

/-- `WebSocketServerError` (`src/websockets/errors.rs`, used by `use_token`). -/
inductive WebSocketServerError where
  | TokenNotFound
deriving DecidableEq, Repr

/-- `src/websockets/mod.rs::use_token`: an atomic take — `remove_sync` the
entry, failing `TokenNotFound` when absent.  Returns the taken data and the
map after removal. -/
def WebSocketServer.use_token (m : TokenMap) (uuid : Nat) :
    Except WebSocketServerError (WebSocketTokenData × TokenMap) :=
  match m uuid with
  | none => .error .TokenNotFound
  | some token => .ok (token, m.erase uuid)

/-! ## Hub session map and subscription mutation (`src/websockets/mod.rs`) -/

/-- The `scc::HashMap<Uuid, WebSocketSessionData>` of live sessions. -/
def SessionMap : Type := Nat → Option WebSocketSessionData

/-- `scc::HashSet::insert_sync`: errors (leaving the set unchanged) when the
element is already present, so the set stays duplicate-free. -/
def insertSubscription (k : WebSocketSubscriptionType)
    (l : List WebSocketSubscriptionType) : List WebSocketSubscriptionType :=
  if l.contains k then l else k :: l

/-- `src/websockets/mod.rs::subscribe_to_event`: `sessions.update_sync` —
when the UUID is absent nothing happens (only a log line); when present,
`v.subscriptions.insert_sync(event)` adds the kind if missing. -/
def WebSocketServer.subscribe_to_event (m : SessionMap) (uuid : Nat)
    (event : WebSocketSubscriptionType) : SessionMap :=
  match m uuid with
  | none => m
  | some v =>
      fun k => if k = uuid
               then some { v with subscriptions := insertSubscription event v.subscriptions }
               else m k

/-- `src/websockets/mod.rs::unsubscribe_from_event`: `sessions.update_sync`
with `v.subscriptions.remove_sync(event)` (absent UUID or absent kind: no
change beyond logging). -/
def WebSocketServer.unsubscribe_from_event (m : SessionMap) (uuid : Nat)
    (event : WebSocketSubscriptionType) : SessionMap :=
  match m uuid with
  | none => m
  | some v =>
      fun k => if k = uuid
               then some { v with subscriptions := v.subscriptions.erase event }
               else m k

end Kromer

namespace Kromer

/-! ## Ledger data model (`src/database/transaction.rs`)

`rust_decimal::Decimal` is exact decimal arithmetic; amounts are embedded
as `Int` (see the header note). -/

/-- `TransactionType` (`src/database/transaction.rs`). -/
inductive TransactionType where
  | Mined
  | Unknown
  | NamePurchase
  | NameARecord
  | NameTransfer
  | Transfer
deriving DecidableEq, Repr

/-- The `transactions` row, `Model` of `src/database/transaction.rs`.  The
SQL columns `"from"`/`"to"` are Lean keywords and are embedded as
`from_addr`/`to_addr`. -/
structure TxModel where
  id : Int
  amount : Int
  from_addr : Option String
  to_addr : String
  metadata : Option String
  name : Option String
  sent_metaname : Option String
  sent_name : Option String
  transaction_type : TransactionType
  date : Int
deriving DecidableEq, Repr

/-- `TransactionCreateData` (`src/database/transaction.rs`). -/
structure TransactionCreateData where
  from_addr : String
  to_addr : String
  amount : Int
  metadata : Option String
  name : Option String
  sent_metaname : Option String
  sent_name : Option String
  transaction_type : TransactionType
deriving DecidableEq, Repr

/-- Modelled from the spec: the wallet row of §3,
`Wallet {id, address, balance≥0, total_in≥0, total_out≥0, created_at, locked}`
(its `Model` lives in `src/database/wallet.rs`, which is not among the
sources here).  The non-negativity bounds are the store's check
constraints, not part of the type. -/
structure Wallet where
  id : Int
  address : String
  balance : Int
  total_in : Int
  total_out : Int
deriving DecidableEq, Repr

/-- The `wallets` check constraints of §3: `balance ≥ 0`, `total_in ≥ 0`,
`total_out ≥ 0`. -/
def Wallet.checkOk (w : Wallet) : Bool :=
  0 ≤ w.balance && 0 ≤ w.total_in && 0 ≤ w.total_out

end Kromer

namespace Kromer

/-! ## Name row and event broadcast (`src/database/name.rs`,
`src/websockets/mod.rs::broadcast_event`) -/

/-- The `names` row, `Model` of `src/database/name.rs` (the fields the
broadcast filter reads, plus identity). -/
structure NameModel where
  id : Int
  name : String
  owner : String
  original_owner : String
deriving DecidableEq, Repr

/-- Modelled from the spec: §9 — WebSocket events are "a tagged variant
(discriminated union) over `{Block, Transaction, Name}`"; the enum
`WebSocketEvent` is declared in the absent `src/models/krist/websockets.rs`
and matched on in `src/websockets/mod.rs::broadcast_event` with payload
fields `transaction`, `name`, and an unspecified block payload (§4.D row:
`Block{…}` with a `miner`). -/
inductive WebSocketEvent where
  | Block (miner : String)
  | Transaction (transaction : TxModel)
  | Name (name : NameModel)
deriving DecidableEq, Repr

/-- The per-session send decision of
`src/websockets/mod.rs::broadcast_event`: for each connected session the
match on the event decides whether the hub queues a send to it.  The
`WebSocketEvent::Block` arm is `todo!()` — a panicking unimplemented
branch — so the decision is `none` (undefined) there; the other arms return
`some` of the filter of §4.D as written in the code. -/
def broadcastDecision (event : WebSocketEvent) (client_data : WebSocketSessionData) :
    Option Bool :=
  match event with
  | .Block _ => none
  | .Transaction transaction =>
      let transaction_from := transaction.from_addr.getD ""
      some ((!client_data.is_guest
              && (client_data.address = transaction.to_addr
                  || client_data.address = transaction_from)
              && client_data.is_subscribed_to .OwnTransactions)
            || client_data.is_subscribed_to .Transactions)
  | .Name name =>
      some ((!client_data.is_guest
              && (client_data.address = name.owner)
              && client_data.is_subscribed_to .OwnNames)
            || client_data.is_subscribed_to .Names)

/-- `S` is sent the event: the decision is defined and positive. -/
def sentTo (event : WebSocketEvent) (s : WebSocketSessionData) : Prop :=
  broadcastDecision event s = some true

/-- The §4.D table row for `Transaction{from,to,…}`, written from the
spec's words (refinement side of C8, to be compared with
`broadcastDecision`): `Transactions ∈ S.subs ∨ (not guest ∧ (S.address ∈
{from,to}) ∧ OwnTransactions ∈ S.subs)`. -/
def specTransactionRow (from_addr to_addr : String) (s : WebSocketSessionData) : Prop :=
  .Transactions ∈ s.subscriptions
  ∨ (¬ s.address = "guest"
      ∧ (s.address = from_addr ∨ s.address = to_addr)
      ∧ .OwnTransactions ∈ s.subscriptions)

instance (f t : String) (s : WebSocketSessionData) :
    Decidable (specTransactionRow f t s) := by
  unfold specTransactionRow; infer_instance

end Kromer

namespace Kromer

/-! ## Subscription data model (`src/models/kromer/subs.rs`,
`src/database/subscriptions/…`) -/

/-- `ContractStatus` (`src/models/kromer/subs.rs`). -/
inductive ContractStatus where
  | Open
  | Closed
  | Canceled
deriving DecidableEq, Repr

/-- `SubStatus` (`src/models/kromer/subs.rs`). -/
inductive SubStatus where
  | Active
  | Pending
  | Canceled
deriving DecidableEq, Repr

/-- The `contract_offers` row (fields read by the scheduler's join in
`src/subs.rs::try_process_lapsed`). -/
structure ContractOffer where
  contract_id : Int
  owner_id : Int
  status : ContractStatus
  price : Int
  cron_expr : String
  allow_list : Option (List String)
deriving DecidableEq, Repr

/-- The `subscriptions` row (fields the scheduler reads and writes).
`lapsed_at = none` embeds SQL `NULL`. -/
structure SubscriptionRow where
  subscription_id : Int
  contract_id : Int
  wallet_id : Int
  status : SubStatus
  lapsed_at : Option Int
deriving DecidableEq, Repr

/-- The relational store: the tables the embedded operations touch, plus
the `transactions.id` sequence. -/
structure Store where
  wallets : List Wallet
  contract_offers : List ContractOffer
  subscriptions : List SubscriptionRow
  transactions : List TxModel
  next_tx_id : Int
deriving DecidableEq, Repr

/-! ## The Transfer primitive (`src/database/transaction.rs::Model::create`) -/

/-- The error kinds `Model::create` can surface
(`DatabaseError`/`WalletError`; `src/errors/wallet.rs` and
`src/database/wallet.rs` are not among the sources, so the constructors
follow §4.A/§7: wallet lookup failure, the balance check-constraint
violation, and transient store errors). -/
inductive DatabaseError where
  | WalletNotFound (address : String)
  | InsufficientFunds
  | StoreError
deriving DecidableEq, Repr

/-- `Wallet::fetch_by_address` wrapped in the `ok_or_else` of
`Model::create`: the unique wallet row with that address, else
`WalletError::NotFound(address)`. -/
def getWalletByAddress (ws : List Wallet) (addr : String) : Except DatabaseError Wallet :=
  match ws.find? (fun w => w.address = addr) with
  | none => .error (.WalletNotFound addr)
  | some w => .ok w

/-- The effect of one relative balance update on one wallet row: add
`delta` to `balance`; a positive delta also raises `total_in` by `delta`, a
negative one raises `total_out` by `-delta` (§4.A steps 2–3). -/
def applyDelta (w : Wallet) (delta : Int) : Wallet :=
  { w with
    balance := w.balance + delta
    total_in := if 0 < delta then w.total_in + delta else w.total_in
    total_out := if delta < 0 then w.total_out - delta else w.total_out }

/-- Modelled from the spec: `Wallet::update_balance` lives in
`src/database/wallet.rs`, which is not among the sources here.  Per §4.A it
performs the relative `UPDATE` of the wallet row with that address inside
the caller's store transaction, and a check-constraint violation on
`wallets.balance ≥ 0` surfaces as `InsufficientFunds`.  The `UPDATE`
touches every row matching the address (the store keeps addresses unique);
a row whose new balance would be negative trips the check constraint. -/
def Wallet.update_balance (ws : List Wallet) (addr : String) (delta : Int) :
    Except DatabaseError (List Wallet) :=
  if ws.any (fun w => w.address = addr && (applyDelta w delta).balance < 0) then
    .error .InsufficientFunds
  else
    .ok (ws.map (fun w => if w.address = addr then applyDelta w delta else w))

/-- `src/database/transaction.rs::Model::create`: inside one store
transaction, fetch sender and recipient by address (`WalletNotFound` when
absent), debit the sender by `amount`, credit the recipient by `amount`,
insert the `transactions` row stamped `NOW()` (= `now`), commit, and
return the row.  Any error aborts the transaction before the commit. -/
def TxModel.create (st : Store) (now : Int) (d : TransactionCreateData) :
    Except DatabaseError (Store × TxModel) := do
  let metadata := d.metadata.getD ""
  let sender ← getWalletByAddress st.wallets d.from_addr
  let recipient ← getWalletByAddress st.wallets d.to_addr
  let ws1 ← Wallet.update_balance st.wallets sender.address (-d.amount)
  let ws2 ← Wallet.update_balance ws1 recipient.address d.amount
  let m : TxModel :=
    { id := st.next_tx_id
      amount := d.amount
      from_addr := some d.from_addr
      to_addr := d.to_addr
      metadata := some metadata
      name := d.name
      sent_metaname := d.sent_metaname
      sent_name := d.sent_name
      transaction_type := d.transaction_type
      date := now }
  .ok ({ st with
          wallets := ws2
          transactions := st.transactions ++ [m]
          next_tx_id := st.next_tx_id + 1 }, m)

/-- `Model::create` as a state transformer: sqlx's scoped transaction rolls
back on any early exit, so a failing call leaves the store as it was. -/
def TxModel.createRun (st : Store) (now : Int) (d : TransactionCreateData) : Store :=
  match TxModel.create st now d with
  | .ok (st2, _) => st2
  | .error _ => st

/-- Sum of all wallet balances. -/
def sumBalances (ws : List Wallet) : Int :=
  (ws.map Wallet.balance).sum

/-- Every wallet balance is non-negative. -/
def allNonneg (ws : List Wallet) : Prop :=
  ∀ w ∈ ws, 0 ≤ w.balance

instance (ws : List Wallet) : Decidable (allNonneg ws) := by
  unfold allNonneg; infer_instance

end Kromer

namespace Kromer

/-! ## Subscription scheduler (`src/subs.rs`)

The cron library (`croner::Cron::find_next_occurrence`) is abstracted as a
`cronNext : String → Int → Option Int` argument: `none` embeds a parse or
search failure, on which `continue_sub` panics (`expect`), unwinding and
rolling the open store transaction back. -/

/-- `LapsedInfo` (`src/subs.rs`): the scheduler's join row over
`subscriptions × contract_offers × wallets`. -/
structure LapsedInfo where
  subscription_id : Int
  contract_id : Int
  lapsed_at : Int
  contractor_id : Int
  contractee_id : Int
  contractee_addr : String
  contract_status : ContractStatus
  sub_status : SubStatus
  price : Int
  cron_expr : String
  allow_list : Option (List String)
deriving DecidableEq, Repr

/-- `ProcessLapsedError` (`src/subs.rs`); the `SqlxError` payload of
`DbError` is dropped. -/
inductive ProcessLapsedError where
  | NoneLapsed
  | DbError
  | Desync
  | Unauthorized
  | InsufficientFunds
deriving DecidableEq, Repr

/-- `LapsedStatus` (`src/subs.rs`; `transction_id` is the source's field
name). -/
inductive LapsedStatus where
  | Canceled
  | Renewed (next_lapsed : Int) (transction_id : Int)
deriving DecidableEq, Repr

/-- `LapsedRes` (`src/subs.rs`). -/
structure LapsedRes where
  contract_id : Int
  subscription_id : Int
  status : LapsedStatus
deriving DecidableEq, Repr

/-- Outcome of one scheduler step on the store.  `err` and `panic` leave
the store unchanged: every mutating statement of `continue_sub` runs inside
an uncommitted transaction (dropped on early return or unwind), and
`cancel_sub`'s single `UPDATE` touches no row in its `Desync` case (the
`subscription_id` primary key makes `rows_affected ∈ {0, 1}`). -/
inductive PLOutcome where
  | ok (st : Store) (res : LapsedRes)
  | err (e : ProcessLapsedError)
  | panic
deriving DecidableEq, Repr

/-- One SQL `UPDATE wallets … WHERE id = wid` inside the renewal
transaction: applies `f` to every matching row, `none` when an updated row
trips a `wallets` check constraint (§3: `balance ≥ 0`, `total_in ≥ 0`,
`total_out ≥ 0`). -/
def updateWalletsById (ws : List Wallet) (wid : Int) (f : Wallet → Wallet) :
    Option (List Wallet) :=
  if ws.any (fun w => w.id = wid && !(f w).checkOk) then none
  else some (ws.map (fun w => if w.id = wid then f w else w))

/-- `src/subs.rs::cancel_sub`:
`UPDATE subscriptions SET lapsed_at = NULL, status = 'canceled' WHERE subscription_id = ?`,
then `Desync` unless exactly one row was affected. -/
def cancel_sub (st : Store) (info : LapsedInfo) : PLOutcome :=
  let row_n :=
    (st.subscriptions.filter (fun s => s.subscription_id = info.subscription_id)).length
  if row_n ≠ 1 then .err .Desync
  else
    .ok { st with
          subscriptions := st.subscriptions.map (fun s =>
            if s.subscription_id = info.subscription_id
            then { s with lapsed_at := none, status := .Canceled }
            else s) }
        { contract_id := info.contract_id
          subscription_id := info.subscription_id
          status := .Canceled }

/-- `src/subs.rs::continue_sub`.  Literally per the source: the allow-list
gate, then in one store transaction the two wallet `UPDATE`s

  `UPDATE wallets SET balance = balance - $1, total_out = abs(total_out) + $2 WHERE id = $2`
  (binds `$1 = price`, `$2 = contractee_id`; a check violation here maps to
  `InsufficientFunds`), and

  `UPDATE wallets SET balance = balance +$1, total_in = abs(total_out) + $2 WHERE id = $2`
  (binds `$1 = price`, `$2 = contractor_id`; a check violation here stays a
  `DbError`),

then the `transactions` insert (address subqueries against the updated
rows; a missing contractor wallet leaves the non-null `"to"` column `NULL`,
a store error), the cron hop from `lapsed_at` (`expect` panics on failure)
and the `lapsed_at` reschedule, then commit. -/
def continue_sub (cronNext : String → Int → Option Int) (now : Int)
    (st : Store) (info : LapsedInfo) : PLOutcome :=
  let authorized_addr :=
    match info.allow_list with
    | some v => v.contains info.contractee_addr
    | none => true
  if !authorized_addr then .err .Unauthorized
  else
    match updateWalletsById st.wallets info.contractee_id (fun w =>
        { w with
          balance := w.balance - info.price
          total_out := |w.total_out| + (info.contractee_id : Int) }) with
    | none => .err .InsufficientFunds
    | some ws1 =>
      match updateWalletsById ws1 info.contractor_id (fun w =>
          { w with
            balance := w.balance + info.price
            total_in := |w.total_out| + (info.contractor_id : Int) }) with
      | none => .err .DbError
      | some ws2 =>
        match (ws2.find? (fun w => w.id = info.contractor_id)).map Wallet.address with
        | none => .err .DbError
        | some to_addr =>
          let txid := st.next_tx_id
          let row : TxModel :=
            { id := txid
              amount := info.price
              from_addr := (ws2.find? (fun w => w.id = info.contractee_id)).map Wallet.address
              to_addr := to_addr
              metadata := some ("sub_id=" ++ toString info.subscription_id)
              name := none
              sent_metaname := none
              sent_name := none
              transaction_type := .Transfer
              date := now }
          match cronNext info.cron_expr info.lapsed_at with
          | none => .panic
          | some next_time =>
            .ok { st with
                  wallets := ws2
                  subscriptions := st.subscriptions.map (fun s =>
                    if s.subscription_id = info.subscription_id
                    then { s with lapsed_at := some next_time }
                    else s)
                  transactions := st.transactions ++ [row]
                  next_tx_id := txid + 1 }
                { contract_id := info.contract_id
                  subscription_id := info.subscription_id
                  status := .Renewed next_time txid }

/-- The scheduler's

  `SELECT … FROM subscriptions WHERE lapsed_at < (NOW() + INTERVAL '10 SECONDS') ORDER BY lapsed_at LIMIT 1`

(`NULL` `lapsed_at` never satisfies `<`): the leftmost row carrying the
minimal qualifying `lapsed_at`. -/
def fetchLapsed (subs : List SubscriptionRow) (now : Int) : Option SubscriptionRow :=
  let candidates := subs.filter (fun s =>
    match s.lapsed_at with
    | some t => t < now + 10
    | none => false)
  candidates.foldl (fun acc s =>
    match acc with
    | none => some s
    | some b => if s.lapsed_at.getD 0 < b.lapsed_at.getD 0 then some s else acc) none

/-- `src/subs.rs::try_process_lapsed`: fetch the soonest lapsed row joined
with its contract and payer wallet (a broken join leaves non-nullable
columns `NULL`, a decode `DbError`), then dispatch on the statuses exactly
as the source's `match` does — note the source attaches the
`Unauthorized | InsufficientFunds → cancel_sub` recovery arm to the
`Pending | Canceled` branch (around `cancel_sub`), not to the `Active`
branch (around `continue_sub`). -/
def try_process_lapsed (cronNext : String → Int → Option Int) (now : Int)
    (st : Store) : PLOutcome :=
  match fetchLapsed st.subscriptions now with
  | none => .err .NoneLapsed
  | some s =>
    match st.contract_offers.find? (fun c => c.contract_id = s.contract_id),
          st.wallets.find? (fun w => w.id = s.wallet_id) with
    | some c, some w =>
      let info : LapsedInfo :=
        { subscription_id := s.subscription_id
          contract_id := c.contract_id
          lapsed_at := s.lapsed_at.getD 0
          contractor_id := c.owner_id
          contractee_id := s.wallet_id
          contractee_addr := w.address
          contract_status := c.status
          sub_status := s.status
          price := c.price
          cron_expr := c.cron_expr
          allow_list := c.allow_list }
      match info.contract_status with
      | .Canceled => cancel_sub st info
      | .Open | .Closed =>
        match info.sub_status with
        | .Active => continue_sub cronNext now st info
        | .Pending | .Canceled =>
          match cancel_sub st info with
          | .err .Unauthorized => cancel_sub st info
          | .err .InsufficientFunds => cancel_sub st info
          | res => res
    | _, _ => .err .DbError

/-- The store after one `try_process_lapsed` step (errors and panics roll
back, see `PLOutcome`). -/
def runProcessLapsed (cronNext : String → Int → Option Int) (now : Int)
    (st : Store) : Store :=
  match try_process_lapsed cronNext now st with
  | .ok st2 _ => st2
  | _ => st

end Kromer

namespace Kromer

/-! ## Concrete sample values for closed theorems and witnesses -/

/-- A sample hand-off token payload. -/
def sampleTokenData : WebSocketTokenData :=
  { address := "guest", private_key := none, computer_id := none }

/-- The empty pending-token map. -/
def emptyTokenMap : TokenMap := fun _ => none

/-- A sample live WS session subscribed to the default set
`{OwnTransactions, Blocks}`. -/
def sampleSession : WebSocketSessionData :=
  { address := "kclient000"
    private_key := none
    session := 7
    subscriptions := [.OwnTransactions, .Blocks]
    computer_id := none }

/-- A hub session map holding `sampleSession` under UUID `1`. -/
def sampleSessionMap : SessionMap :=
  fun k => if k = 1 then some sampleSession else none

end Kromer

namespace Kromer

/-- **C5.** For every WebSocket hand-off token `Obtain`ed under a fresh
UUID, the first `Use` with that UUID succeeds and returns the stored token
data (taking the entry out of the map), and a subsequent `Use` with the
same UUID fails `TokenNotFound`: obtain-then-use is a take, not a read. -/
theorem C5_token_used_exactly_once (m : TokenMap) (u : Nat) (d : WebSocketTokenData)
    (hfresh : m u = none) :
    WebSocketServer.use_token (WebSocketServer.obtain_token m u d) u
      = .ok (d, TokenMap.erase (WebSocketServer.obtain_token m u d) u)
    ∧ (TokenMap.erase (WebSocketServer.obtain_token m u d) u) u = none
    ∧ WebSocketServer.use_token (TokenMap.erase (WebSocketServer.obtain_token m u d) u) u
      = .error .TokenNotFound := by
  unfold WebSocketServer.use_token WebSocketServer.obtain_token TokenMap.erase
  simp

/-- Witness for C5 at the empty map, UUID `0` and `sampleTokenData`. -/
theorem C5_witness :
    emptyTokenMap 0 = none
    ∧ (WebSocketServer.use_token (WebSocketServer.obtain_token emptyTokenMap 0 sampleTokenData) 0
        = .ok (sampleTokenData,
               TokenMap.erase (WebSocketServer.obtain_token emptyTokenMap 0 sampleTokenData) 0)
      ∧ (TokenMap.erase (WebSocketServer.obtain_token emptyTokenMap 0 sampleTokenData) 0) 0 = none
      ∧ WebSocketServer.use_token
          (TokenMap.erase (WebSocketServer.obtain_token emptyTokenMap 0 sampleTokenData) 0) 0
        = .error .TokenNotFound) :=
  ⟨rfl, C5_token_used_exactly_once emptyTokenMap 0 sampleTokenData rfl⟩

/-- **C7.** The claim says `Vacuum` removes exactly the expired entries and
keeps the live ones; the code's `retain(|_, (_, exp)| *exp <= current_time)`
does the opposite.  At `sampleAuthMap` and time `50`, the live session `1`
(expiry `100`) is removed and the expired session `2` (expiry `10`) is
kept. -/
theorem C7_vacuum_keeps_expired :
    (AuthSessions.vacuum sampleAuthMap 50) 1 = none
    ∧ (AuthSessions.vacuum sampleAuthMap 50) 2 = some ("kbbbbbbbbb", 10)
    ∧ (100 : Int) > 50 ∧ (10 : Int) ≤ 50 := by
  refine ⟨by decide, by decide, by decide, by decide⟩

/-- **C9.** The `WebSocketEvent::Block` arm of
`broadcast_event`'s per-session match is `todo!()`: under the shallow
embedding the send decision is undefined (`none`) for every session,
whatever the miner payload — the §4.D `Block` filter row is never
evaluated. -/
theorem C9_block_branch_undefined (miner : String) (s : WebSocketSessionData) :
    broadcastDecision (.Block miner) s = none := rfl

/-- **C10.** `subscribe_to_event` and `unsubscribe_from_event` on an absent
UUID change nothing; on a present UUID they rewrite only that session's
subscription set (address, private key, socket handle and computer id kept
by the record update) and leave every other key of the map untouched. -/
theorem C10_subscription_frame (m : SessionMap) (u : Nat) (e : WebSocketSubscriptionType) :
    (m u = none →
      WebSocketServer.subscribe_to_event m u e = m
      ∧ WebSocketServer.unsubscribe_from_event m u e = m)
    ∧ (∀ v, m u = some v →
        ((WebSocketServer.subscribe_to_event m u e) u
            = some { v with subscriptions := insertSubscription e v.subscriptions }
          ∧ ∀ k, k ≠ u → (WebSocketServer.subscribe_to_event m u e) k = m k)
        ∧ ((WebSocketServer.unsubscribe_from_event m u e) u
            = some { v with subscriptions := v.subscriptions.erase e }
          ∧ ∀ k, k ≠ u → (WebSocketServer.unsubscribe_from_event m u e) k = m k)) := by
  constructor
  · intro h
    constructor
    · unfold WebSocketServer.subscribe_to_event
      rw [h]
    · unfold WebSocketServer.unsubscribe_from_event
      rw [h]
  · intro v hv
    refine ⟨⟨?_, ?_⟩, ?_, ?_⟩
    · unfold WebSocketServer.subscribe_to_event
      rw [hv]
      simp
    · intro k hk
      unfold WebSocketServer.subscribe_to_event
      rw [hv]
      simp [hk]
    · unfold WebSocketServer.unsubscribe_from_event
      rw [hv]
      simp
    · intro k hk
      unfold WebSocketServer.unsubscribe_from_event
      rw [hv]
      simp [hk]

/-- Witness for C10: subscribing session `1` of `sampleSessionMap` to
`Names` rewrites exactly its subscription set. -/
theorem C10_witness :
    sampleSessionMap 1 = some sampleSession
    ∧ (WebSocketServer.subscribe_to_event sampleSessionMap 1 .Names) 1
        = some { sampleSession with
                 subscriptions := insertSubscription .Names sampleSession.subscriptions } :=
  ⟨rfl, (((C10_subscription_frame sampleSessionMap 1 .Names).2 sampleSession rfl).1).1⟩

end Kromer

namespace Kromer

/-- Reading a live entry: when the stored expiry is still in the future the
lookup answers `some (queried == stored)` and leaves the map alone. -/
theorem is_authed_addr_live (m : AuthMap) (id : Nat) (q a : String) (exp now : Int)
    (hm : m id = some (a, exp)) (hlive : now < exp) :
    AuthSessions.is_authed_addr m id q now = (some (decide (q = a)), m) := by
  unfold AuthSessions.is_authed_addr
  rw [hm]
  exact if_neg (by omega)

/-- Reading an expired entry: the entry is evicted and the answer is
`none`. -/
theorem is_authed_addr_expired (m : AuthMap) (id : Nat) (q a : String) (exp now : Int)
    (hm : m id = some (a, exp)) (hexp : exp ≤ now) :
    AuthSessions.is_authed_addr m id q now = (none, m.erase id) := by
  unfold AuthSessions.is_authed_addr
  rw [hm]
  exact if_pos hexp

/-- **C6.** For every `(uuid, expires_at)` returned by `register`,
`is_authed_addr` at any time strictly before `expires_at` answers
`some (queried address == stored address)` and leaves the map alone, and at
`expires_at` or any later time answers `none` and evicts the entry — no
`vacuum` call is involved. -/
theorem C6_session_ttl (m : AuthMap) (id : Nat) (a q : String) (now t : Int) :
    (AuthSessions.register m id a now).1 = (id, now + 3600)
    ∧ (t < now + 3600 →
        AuthSessions.is_authed_addr (AuthSessions.register m id a now).2 id q t
          = (some (decide (q = a)), (AuthSessions.register m id a now).2))
    ∧ (now + 3600 ≤ t →
        AuthSessions.is_authed_addr (AuthSessions.register m id a now).2 id q t
          = (none, AuthMap.erase (AuthSessions.register m id a now).2 id)) := by
  have hm : (AuthSessions.register m id a now).2 id = some (a, now + 3600) := by
    simp [AuthSessions.register, AuthMap.insert]
  exact ⟨rfl,
    fun h => is_authed_addr_live _ id q a (now + 3600) t hm h,
    fun h => is_authed_addr_expired _ id q a (now + 3600) t hm h⟩

/-- Witness for C6 on the empty map: register at time `0`, query at times
`3599` (live) and `3600` (expired). -/
theorem C6_witness :
    ((3599 : Int) < 0 + 3600 ∧
      AuthSessions.is_authed_addr
        (AuthSessions.register (fun _ => none) 4 "kaaaaaaaaa" 0).2 4 "kaaaaaaaaa" 3599
        = (some (decide (("kaaaaaaaaa" : String) = "kaaaaaaaaa")),
           (AuthSessions.register (fun _ => none) 4 "kaaaaaaaaa" 0).2))
    ∧ ((0 : Int) + 3600 ≤ 3600 ∧
      AuthSessions.is_authed_addr
        (AuthSessions.register (fun _ => none) 4 "kaaaaaaaaa" 0).2 4 "kaaaaaaaaa" 3600
        = (none, AuthMap.erase (AuthSessions.register (fun _ => none) 4 "kaaaaaaaaa" 0).2 4)) :=
  ⟨⟨by decide,
    (C6_session_ttl (fun _ => none) 4 "kaaaaaaaaa" "kaaaaaaaaa" 0 3599).2.1 (by decide)⟩,
   ⟨by decide,
    (C6_session_ttl (fun _ => none) 4 "kaaaaaaaaa" "kaaaaaaaaa" 0 3600).2.2 (by decide)⟩⟩

/-- `scc::HashSet` membership in list form. -/
theorem contains_true_iff {α : Type} [DecidableEq α] (l : List α) (a : α) :
    l.contains a = true ↔ a ∈ l := by
  simp

/-- **C8.** For a `Transaction` event carrying a `from` address, a session
is sent the event exactly under the §4.D table row: it subscribes to
`Transactions`, or it is no guest, its address is the event's `from` or
`to` address, and it subscribes to `OwnTransactions`. -/
theorem C8_transaction_broadcast_filter (s : WebSocketSessionData) (t : TxModel)
    (f : String) (hf : t.from_addr = some f) :
    sentTo (.Transaction t) s ↔ specTransactionRow f t.to_addr s := by
  unfold sentTo
  simp only [broadcastDecision, hf]
  unfold specTransactionRow WebSocketSessionData.is_guest WebSocketSessionData.is_subscribed_to
  simp only [Option.getD_some, Option.some.injEq, Bool.or_eq_true, Bool.and_eq_true,
    Bool.not_eq_true', decide_eq_false_iff_not, decide_eq_true_eq, contains_true_iff,
    eq_iff_iff]
  tauto

/-- Witness for C8: `sampleSession` (address `"kclient000"`, subscribed to
`OwnTransactions`) and a transfer from `"kclient000"` to `"kowner0000"`. -/
theorem C8_witness :
    ({ id := 9, amount := 1, from_addr := some "kclient000", to_addr := "kowner0000",
       metadata := none, name := none, sent_metaname := none, sent_name := none,
       transaction_type := .Transfer, date := 0 } : TxModel).from_addr = some "kclient000"
    ∧ (sentTo
        (.Transaction
          { id := 9, amount := 1, from_addr := some "kclient000", to_addr := "kowner0000",
            metadata := none, name := none, sent_metaname := none, sent_name := none,
            transaction_type := .Transfer, date := 0 }) sampleSession
      ↔ specTransactionRow "kclient000"
          ({ id := 9, amount := 1, from_addr := some "kclient000", to_addr := "kowner0000",
             metadata := none, name := none, sent_metaname := none, sent_name := none,
             transaction_type := .Transfer, date := 0 } : TxModel).to_addr sampleSession) :=
  ⟨rfl, C8_transaction_broadcast_filter sampleSession _ "kclient000" rfl⟩

end Kromer

namespace Kromer

/-! ## Concrete scheduler scenarios (spec §8 E3/E4-style setups) -/

/-- Payer wallet: id `1`, balance `10`, `total_in = 0`, `total_out = 0`. -/
def samplePayer : Wallet :=
  { id := 1, address := "kpayer0000", balance := 10, total_in := 0, total_out := 0 }

/-- Contract-owner wallet: id `2`, balance `0`, `total_in = 7`,
`total_out = 3`. -/
def sampleOwner : Wallet :=
  { id := 2, address := "kowner0000", balance := 0, total_in := 7, total_out := 3 }

/-- An open contract of owner `2`, price `5`, no allow-list. -/
def sampleContract : ContractOffer :=
  { contract_id := 1, owner_id := 2, status := .Open, price := 5,
    cron_expr := "0 0 1 1 0", allow_list := none }

/-- An active subscription of wallet `1` to the contract, lapsing at time
`0`. -/
def sampleSub : SubscriptionRow :=
  { subscription_id := 1, contract_id := 1, wallet_id := 1, status := .Active,
    lapsed_at := some 0 }

/-- The renewal scenario store. -/
def sampleStore : Store :=
  { wallets := [samplePayer, sampleOwner]
    contract_offers := [sampleContract]
    subscriptions := [sampleSub]
    transactions := []
    next_tx_id := 1 }

/-- A cron successor: one minute after the given time. -/
def sampleCron : String → Int → Option Int := fun _ t => some (t + 60)

/-- The same scenario with an allow-list that does not contain the payer's
address. -/
def sampleStoreAllow : Store :=
  { sampleStore with
    contract_offers := [{ sampleContract with allow_list := some ["kfriend000"] }] }

/-- The same scenario with the payer too poor for the price (`3 < 5`). -/
def sampleStorePoor : Store :=
  { sampleStore with wallets := [{ samplePayer with balance := 3 }, sampleOwner] }

/-- **C1.** Renewing `sampleSub` at time `0`: the payer is debited by the
price `5` and the owner credited by `5` as the claim says, but the
bookkeeping columns diverge from the claim — the code's
`total_out = abs(total_out) + $2` / `total_in = abs(total_out) + $2` bind
`$2` to the wallet id, so the payer's `total_out` becomes
`|0| + 1 = 1` (not `0 + 5`) and the owner's `total_in` becomes
`|3| + 2 = 5` (not `7 + 5 = 12`). -/
theorem C1_renewal_bookkeeping :
    try_process_lapsed sampleCron 0 sampleStore
      = .ok { sampleStore with
              wallets := [{ samplePayer with balance := 5, total_out := 1 },
                          { sampleOwner with balance := 5, total_in := 5 }]
              subscriptions := [{ sampleSub with lapsed_at := some 60 }]
              transactions := [{ id := 1, amount := 5, from_addr := some "kpayer0000",
                                 to_addr := "kowner0000", metadata := some "sub_id=1",
                                 name := none, sent_metaname := none, sent_name := none,
                                 transaction_type := .Transfer, date := 0 }]
              next_tx_id := 2 }
            { contract_id := 1, subscription_id := 1, status := .Renewed 60 1 }
    ∧ ¬ ((1 : Int) = samplePayer.total_out + sampleContract.price)
    ∧ ¬ ((5 : Int) = sampleOwner.total_in + sampleContract.price) := by
  refine ⟨by decide, by decide, by decide⟩

/-- **C2.** A lapsed, active subscription under an open contract whose
allow-list excludes the payer: `continue_sub` fails `Unauthorized`, but
`try_process_lapsed` returns that error without cancelling — the
`Unauthorized | InsufficientFunds → cancel_sub` recovery arm sits on the
`Pending | Canceled` branch, not on the `Active` one — so the subscription
stays `Active` with its `lapsed_at` intact; likewise for a payer with
insufficient funds. -/
theorem C2_no_cancel_on_failed_renewal :
    try_process_lapsed sampleCron 0 sampleStoreAllow = .err .Unauthorized
    ∧ runProcessLapsed sampleCron 0 sampleStoreAllow = sampleStoreAllow
    ∧ (runProcessLapsed sampleCron 0 sampleStoreAllow).subscriptions
        = [{ subscription_id := 1, contract_id := 1, wallet_id := 1, status := .Active,
             lapsed_at := some 0 }]
    ∧ try_process_lapsed sampleCron 0 sampleStorePoor = .err .InsufficientFunds
    ∧ runProcessLapsed sampleCron 0 sampleStorePoor = sampleStorePoor
    ∧ (runProcessLapsed sampleCron 0 sampleStorePoor).subscriptions
        = [{ subscription_id := 1, contract_id := 1, wallet_id := 1, status := .Active,
             lapsed_at := some 0 }] := by
  refine ⟨by decide, by decide, by decide, by decide, by decide, by decide⟩

end Kromer

namespace Kromer

/-- `getWalletByAddress` only ever fails with `WalletNotFound` of the
queried address. -/
theorem getWalletByAddress_error (ws : List Wallet) (a : String) (e : DatabaseError)
    (h : getWalletByAddress ws a = .error e) : e = .WalletNotFound a := by
  unfold getWalletByAddress at h
  split at h
  · injection h with h
    exact h.symm
  · exact absurd h (by simp)

/-- `Wallet.update_balance` only ever fails with `InsufficientFunds`. -/
theorem update_balance_error (ws : List Wallet) (a : String) (delta : Int)
    (e : DatabaseError) (h : Wallet.update_balance ws a delta = .error e) :
    e = .InsufficientFunds := by
  unfold Wallet.update_balance at h
  split at h
  · injection h with h
    exact h.symm
  · exact absurd h (by simp)

/-- **C4.** A failing `Model::create` call fails as `SenderNotFound`
(`WalletNotFound` of the `from` address), `RecipientNotFound`
(`WalletNotFound` of the `to` address), `InsufficientFunds` (the balance
check constraint) or a transient `StoreError`, and is a no-op on the
store: no wallet row and no `transactions` row changes. -/
theorem C4_transfer_failure_modes (st : Store) (now : Int) (d : TransactionCreateData)
    (e : DatabaseError) (h : TxModel.create st now d = .error e) :
    (e = .WalletNotFound d.from_addr ∨ e = .WalletNotFound d.to_addr
      ∨ e = .InsufficientFunds ∨ e = .StoreError)
    ∧ TxModel.createRun st now d = st := by
  refine ⟨?_, ?_⟩
  swap
  · unfold TxModel.createRun
    rw [h]
  · unfold TxModel.create at h
    rcases h1 : getWalletByAddress st.wallets d.from_addr with e1 | w1 <;> rw [h1] at h <;>
      simp only [Bind.bind, Except.bind] at h
    · injection h with h
      exact Or.inl (h ▸ getWalletByAddress_error _ _ _ h1)
    rcases h2 : getWalletByAddress st.wallets d.to_addr with e2 | w2 <;> rw [h2] at h <;>
      simp only [Bind.bind, Except.bind] at h
    · injection h with h
      exact Or.inr (Or.inl (h ▸ getWalletByAddress_error _ _ _ h2))
    rcases h3 : Wallet.update_balance st.wallets w1.address (-d.amount) with e3 | ws1 <;>
      rw [h3] at h <;> simp only [Bind.bind, Except.bind] at h
    · injection h with h
      exact Or.inr (Or.inr (Or.inl (h ▸ update_balance_error _ _ _ _ h3)))
    rcases h4 : Wallet.update_balance ws1 w2.address d.amount with e4 | ws2 <;>
      rw [h4] at h <;> simp only [Bind.bind, Except.bind] at h
    · injection h with h
      exact Or.inr (Or.inr (Or.inl (h ▸ update_balance_error _ _ _ _ h4)))
    exact absurd h (by simp)

/-- The empty store. -/
def emptyStore : Store :=
  { wallets := [], contract_offers := [], subscriptions := [],
    transactions := [], next_tx_id := 1 }

/-- A transfer request between two (possibly absent) wallets. -/
def sampleTransfer : TransactionCreateData :=
  { from_addr := "kpayer0000", to_addr := "kowner0000", amount := 5,
    metadata := none, name := none, sent_metaname := none, sent_name := none,
    transaction_type := .Transfer }

/-- Witness for C4: transferring out of an absent wallet on the empty
store fails `WalletNotFound` and leaves the store as it was. -/
theorem C4_witness :
    TxModel.create emptyStore 0 sampleTransfer
      = .error (.WalletNotFound "kpayer0000")
    ∧ ((DatabaseError.WalletNotFound "kpayer0000"
          = .WalletNotFound sampleTransfer.from_addr
        ∨ DatabaseError.WalletNotFound "kpayer0000"
          = .WalletNotFound sampleTransfer.to_addr
        ∨ DatabaseError.WalletNotFound "kpayer0000" = .InsufficientFunds
        ∨ DatabaseError.WalletNotFound "kpayer0000" = .StoreError)
      ∧ TxModel.createRun emptyStore 0 sampleTransfer = emptyStore) :=
  ⟨rfl, C4_transfer_failure_modes emptyStore 0 sampleTransfer
          (.WalletNotFound "kpayer0000") rfl⟩

end Kromer

namespace Kromer

/-- `applyDelta` never touches the address column. -/
theorem applyDelta_address (w : Wallet) (delta : Int) :
    (applyDelta w delta).address = w.address := rfl

/-- `applyDelta` moves the balance by exactly `delta`. -/
theorem applyDelta_balance (w : Wallet) (delta : Int) :
    (applyDelta w delta).balance = w.balance + delta := rfl

/-- A successful `update_balance` is the per-row update map, and every
updated row passed the balance check. -/
theorem update_balance_ok (ws : List Wallet) (a : String) (delta : Int)
    (ws' : List Wallet) (h : Wallet.update_balance ws a delta = .ok ws') :
    ws' = ws.map (fun w => if w.address = a then applyDelta w delta else w)
    ∧ ∀ w ∈ ws, w.address = a → 0 ≤ (applyDelta w delta).balance := by
  unfold Wallet.update_balance at h
  split at h
  · exact absurd h (by simp)
  · next hany =>
    injection h with h
    refine ⟨h.symm, ?_⟩
    intro w hw ha
    by_contra hneg
    push_neg at hneg
    apply hany
    rw [List.any_eq_true]
    exact ⟨w, hw, by simp [ha, hneg]⟩

/-- The per-row update map never touches addresses. -/
theorem updated_addresses (ws : List Wallet) (a : String) (delta : Int) :
    (ws.map (fun w => if w.address = a then applyDelta w delta else w)).map Wallet.address
      = ws.map Wallet.address := by
  induction ws with
  | nil => rfl
  | cons w t ih =>
    simp only [List.map_cons, ih, List.cons.injEq, and_true]
    split <;> rfl

/-- The per-row update map is the identity on a list that does not carry
the address. -/
theorem map_untouched (t : List Wallet) (a : String) (delta : Int)
    (h : a ∉ t.map Wallet.address) :
    t.map (fun x => if x.address = a then applyDelta x delta else x) = t := by
  induction t with
  | nil => rfl
  | cons x r ih =>
    simp only [List.map_cons, List.mem_cons, not_or] at h
    simp only [List.map_cons]
    rw [if_neg (fun hx => h.1 hx.symm), ih h.2]

/-- Updating the unique row carrying address `a` moves the balance sum by
exactly `delta`. -/
theorem updated_sum (ws : List Wallet) (a : String) (delta : Int)
    (hnd : (ws.map Wallet.address).Nodup) (hmem : a ∈ ws.map Wallet.address) :
    sumBalances (ws.map (fun w => if w.address = a then applyDelta w delta else w))
      = sumBalances ws + delta := by
  induction ws with
  | nil => simp at hmem
  | cons w t ih =>
    simp only [List.map_cons, List.nodup_cons] at hnd
    simp only [List.map_cons, List.mem_cons] at hmem
    simp only [List.map_cons, sumBalances, List.sum_cons]
    rcases hmem with h1 | h2
    · rw [if_pos h1.symm, map_untouched t a delta (h1 ▸ hnd.1), applyDelta_balance]
      ring
    · have hw : ¬ w.address = a := by
        intro hx
        exact hnd.1 (hx ▸ h2)
      have ih2 := ih hnd.2 h2
      simp only [sumBalances] at ih2
      rw [if_neg hw, ih2]
      ring

/-- A successful `update_balance` keeps every balance non-negative. -/
theorem updated_nonneg (ws : List Wallet) (a : String) (delta : Int)
    (ws' : List Wallet) (h : Wallet.update_balance ws a delta = .ok ws')
    (hnn : allNonneg ws) : allNonneg ws' := by
  obtain ⟨hws, hch⟩ := update_balance_ok ws a delta ws' h
  subst hws
  intro w' hw'
  rw [List.mem_map] at hw'
  obtain ⟨x, hx, hfx⟩ := hw'
  by_cases hxa : x.address = a
  · rw [← hfx, if_pos hxa]
    exact hch x hx hxa
  · rw [← hfx, if_neg hxa]
    exact hnn x hx

/-- A successful wallet lookup returns a member row carrying the queried
address. -/
theorem getWalletByAddress_ok (ws : List Wallet) (a : String) (w : Wallet)
    (h : getWalletByAddress ws a = .ok w) : w ∈ ws ∧ w.address = a := by
  unfold getWalletByAddress at h
  split at h
  · exact absurd h (by simp)
  · next w0 hfind =>
    injection h with h
    subst h
    exact ⟨List.mem_of_find?_eq_some hfind, by simpa using List.find?_some hfind⟩

/-- A successful `Model::create` consists of the sender debit followed by
the recipient credit, both addresses being present wallet rows. -/
theorem create_ok_wallets (st : Store) (now : Int) (d : TransactionCreateData)
    (st2 : Store) (m : TxModel) (h : TxModel.create st now d = .ok (st2, m)) :
    d.from_addr ∈ st.wallets.map Wallet.address
    ∧ d.to_addr ∈ st.wallets.map Wallet.address
    ∧ ∃ ws1,
        Wallet.update_balance st.wallets d.from_addr (-d.amount) = .ok ws1
        ∧ Wallet.update_balance ws1 d.to_addr d.amount = .ok st2.wallets := by
  unfold TxModel.create at h
  rcases h1 : getWalletByAddress st.wallets d.from_addr with e1 | w1 <;> rw [h1] at h <;>
    simp only [Bind.bind, Except.bind] at h
  · exact absurd h (by simp)
  rcases h2 : getWalletByAddress st.wallets d.to_addr with e2 | w2 <;> rw [h2] at h <;>
    simp only [Bind.bind, Except.bind] at h
  · exact absurd h (by simp)
  rcases h3 : Wallet.update_balance st.wallets w1.address (-d.amount) with e3 | ws1 <;>
    rw [h3] at h <;> simp only [Bind.bind, Except.bind] at h
  · exact absurd h (by simp)
  rcases h4 : Wallet.update_balance ws1 w2.address d.amount with e4 | ws2 <;>
    rw [h4] at h <;> simp only [Bind.bind, Except.bind] at h
  · exact absurd h (by simp)
  obtain ⟨hw1m, hw1a⟩ := getWalletByAddress_ok _ _ _ h1
  obtain ⟨hw2m, hw2a⟩ := getWalletByAddress_ok _ _ _ h2
  injection h with hpair
  have hst : st2.wallets = ws2 := by
    have := congrArg Prod.fst hpair
    simp only at this
    rw [← this]
  refine ⟨List.mem_map.mpr ⟨w1, hw1m, hw1a⟩, List.mem_map.mpr ⟨w2, hw2m, hw2a⟩,
    ws1, ?_, ?_⟩
  · rw [← hw1a]
    exact h3
  · rw [← hw2a, hst]
    exact h4

/-- One `createRun` step (success or rolled-back failure) keeps the address
column, every balance's non-negativity, and the balance sum. -/
theorem createRun_invariant (st : Store) (now : Int) (d : TransactionCreateData)
    (hnd : (st.wallets.map Wallet.address).Nodup) (hnn : allNonneg st.wallets) :
    (TxModel.createRun st now d).wallets.map Wallet.address
      = st.wallets.map Wallet.address
    ∧ allNonneg (TxModel.createRun st now d).wallets
    ∧ sumBalances (TxModel.createRun st now d).wallets = sumBalances st.wallets := by
  unfold TxModel.createRun
  rcases hc : TxModel.create st now d with e | p
  · exact ⟨rfl, hnn, rfl⟩
  · obtain ⟨st2, m⟩ := p
    obtain ⟨hmf, hmt, ws1, hu1, hu2⟩ := create_ok_wallets st now d st2 m hc
    obtain ⟨hws1, _⟩ := update_balance_ok _ _ _ _ hu1
    obtain ⟨hws2, _⟩ := update_balance_ok _ _ _ _ hu2
    have haddr1 : ws1.map Wallet.address = st.wallets.map Wallet.address := by
      rw [hws1]
      exact updated_addresses _ _ _
    have haddr2 : st2.wallets.map Wallet.address = ws1.map Wallet.address := by
      rw [hws2]
      exact updated_addresses _ _ _
    have hnn1 : allNonneg ws1 := updated_nonneg _ _ _ _ hu1 hnn
    have hnn2 : allNonneg st2.wallets := updated_nonneg _ _ _ _ hu2 hnn1
    have hsum1 : sumBalances ws1 = sumBalances st.wallets + (-d.amount) := by
      rw [hws1]
      exact updated_sum _ _ _ hnd hmf
    have hsum2 : sumBalances st2.wallets = sumBalances ws1 + d.amount := by
      rw [hws2]
      exact updated_sum _ _ _ (haddr1 ▸ hnd) (haddr1 ▸ hmt)
    exact ⟨haddr2.trans haddr1, hnn2, by rw [hsum2, hsum1]; ring⟩

/-- A sequence of `Transfer` calls, applied left to right. -/
def transferSeq (st : Store) (now : Int) (ds : List TransactionCreateData) : Store :=
  ds.foldl (fun acc d => TxModel.createRun acc now d) st

/-- The `createRun` invariant, extended over any call sequence. -/
theorem transferSeq_invariant (now : Int) :
    ∀ (ds : List TransactionCreateData) (st : Store),
      (st.wallets.map Wallet.address).Nodup → allNonneg st.wallets →
      (transferSeq st now ds).wallets.map Wallet.address
        = st.wallets.map Wallet.address
      ∧ allNonneg (transferSeq st now ds).wallets
      ∧ sumBalances (transferSeq st now ds).wallets = sumBalances st.wallets := by
  intro ds
  induction ds with
  | nil => exact fun st _ hnn => ⟨rfl, hnn, rfl⟩
  | cons d t ih =>
    intro st hnd hnn
    obtain ⟨ha, hn, hs⟩ := createRun_invariant st now d hnd hnn
    obtain ⟨ha2, hn2, hs2⟩ := ih (TxModel.createRun st now d) (ha ▸ hnd) hn
    exact ⟨ha2.trans ha, hn2, hs2.trans hs⟩

end Kromer

namespace Kromer

/-- **C3.** Starting from a store with unique wallet addresses and
non-negative balances, any sequence of `Transfer` calls (each one either
succeeding or rolling back as a no-op) leaves the sum of all wallet
balances unchanged after every prefix — the sender is debited exactly what
the recipient is credited — and no wallet balance is negative in any
intermediate or final state. -/
theorem C3_conservation (st : Store) (now : Int) (ds : List TransactionCreateData)
    (hnd : (st.wallets.map Wallet.address).Nodup) (hnn : allNonneg st.wallets) :
    (∀ n : Nat,
      sumBalances (transferSeq st now (ds.take n)).wallets = sumBalances st.wallets
      ∧ allNonneg (transferSeq st now (ds.take n)).wallets)
    ∧ sumBalances (transferSeq st now ds).wallets = sumBalances st.wallets
    ∧ allNonneg (transferSeq st now ds).wallets := by
  refine ⟨fun n => ?_, ?_, ?_⟩
  · obtain ⟨_, hn, hs⟩ := transferSeq_invariant now (ds.take n) st hnd hnn
    exact ⟨hs, hn⟩
  · exact (transferSeq_invariant now ds st hnd hnn).2.2
  · exact (transferSeq_invariant now ds st hnd hnn).2.1

/-- Witness for C3: one five-coin transfer from the payer to the owner of
`sampleStore`. -/
theorem C3_witness :
    ((sampleStore.wallets.map Wallet.address).Nodup ∧ allNonneg sampleStore.wallets)
    ∧ (sumBalances (transferSeq sampleStore 0 [sampleTransfer]).wallets
        = sumBalances sampleStore.wallets
      ∧ allNonneg (transferSeq sampleStore 0 [sampleTransfer]).wallets) :=
  ⟨⟨by decide, by decide⟩,
   (C3_conservation sampleStore 0 [sampleTransfer] (by decide) (by decide)).2⟩

end Kromer
